import Mathlib

/-!
Verification of the Kalman filter simulator (`src/main.rs`).

The estimator and simulator core of the program is embedded shallowly:
`f64` arithmetic is idealised as exact rational (`ℚ`) arithmetic, in-place
mutation of the `KalmanFilter` struct becomes explicit state passing, and
the `rand` pseudorandom generator becomes an injected stream of draws
`rng : ℕ → ℚ` (one draw per loop iteration) whose values are constrained by
the documented contract of `Rng::gen_range`.  `gen_range` on an empty range
panics in `rand`; the panic is modelled by `Except.error`, so the simulation
loop as a whole returns `Except String (List SimulateTick)`.
-/

namespace KalmanSim

/-- The `State` struct of `src/main.rs`: position `x` and velocity `v`. -/
structure State where
  x : ℚ
  v : ℚ
deriving DecidableEq

/-- The `KalmanFilter` struct of `src/main.rs`: state, error covariance `p`,
measurement noise variance `r`, process noise variance `q`, last gain `k`. -/
structure KalmanFilter where
  state : State
  p : ℚ
  r : ℚ
  q : ℚ
  k : ℚ
deriving DecidableEq

/-- `KalmanFilter::new` from `src/main.rs`: initial state from the arguments,
`p = 1.0`, `k = 0.0`, and `r`, `q` as supplied. -/
def KalmanFilter.new (initial_position initial_velocity r q : ℚ) : KalmanFilter :=
  { state := { x := initial_position, v := initial_velocity }
    p := 1
    r := r
    q := q
    k := 0 }

/-- `KalmanFilter::predict` from `src/main.rs`:
`state.x += state.v * dt; p += q`. -/
def KalmanFilter.predict (kf : KalmanFilter) (dt : ℚ) : KalmanFilter :=
  { kf with
    state := { kf.state with x := kf.state.x + kf.state.v * dt }
    p := kf.p + kf.q }

/-- `KalmanFilter::update` from `src/main.rs`:
`k = p / (p + r); state.x += k * (measured_position - state.x); p *= 1.0 - k`. -/
def KalmanFilter.update (kf : KalmanFilter) (measured_position : ℚ) : KalmanFilter :=
  let k := kf.p / (kf.p + kf.r)
  { kf with
    k := k
    state := { kf.state with x := kf.state.x + k * (measured_position - kf.state.x) }
    p := kf.p * (1 - k) }

/-- The `SimulateTick` struct of `src/main.rs`: three `(time, value)` pairs. -/
structure SimulateTick where
  true_positions : ℚ × ℚ
  measured_positions : ℚ × ℚ
  estimated_positions : ℚ × ℚ
deriving DecidableEq

/-- The `SimulateResult` struct of `src/main.rs`: the ordered list of ticks. -/
structure SimulateResult where
  ticks : List SimulateTick
deriving DecidableEq

/-- Model of `rand::Rng::gen_range(low..high)` from the `rand` crate (an
external dependency, modelled from its documentation): it panics when the
range `low..high` is empty (`low >= high`), and otherwise returns the
generator draw, which `rand` guarantees lies in the half-open interval
`[low, high)`.  The draw itself is supplied by the injected stream. -/
def gen_range (low high draw : ℚ) : Except String ℚ :=
  if low < high then .ok draw else .error "cannot sample empty range"

/-- The documented support of `rand::Rng::gen_range(low..high)`: the half-open
interval `[low, high)` (low endpoint included, high endpoint excluded). -/
def gen_range_support (low high x : ℚ) : Prop :=
  low ≤ x ∧ x < high

/-- Spec-side noise support, written from the specification sentence: noise is
drawn "uniformly from the open interval (-sensorNoiseStdDev,
+sensorNoiseStdDev)", both endpoints excluded.  Stated for comparison with
`gen_range_support`, which is what the code actually uses. -/
def spec_open_noise_support (s x : ℚ) : Prop :=
  -s < x ∧ x < s

/-- The body of the `for step in 0..steps` loop of `simulate` in
`src/main.rs`, iterated `n` times starting at index `step`, carrying the
mutable loop state (`true_position`, the filter), and emitting the ticks in
order.  `rng step` is the generator draw consumed at iteration `step`. -/
def simRun (dt velocity sensor_noise_stddev : ℚ) (rng : ℕ → ℚ) :
    ℕ → ℕ → ℚ → KalmanFilter → Except String (List SimulateTick)
  | 0, _, _, _ => .ok []
  | n + 1, step, true_position, kalman =>
    let time : ℚ := (step : ℚ) * dt
    let tp := true_position + velocity * dt
    match gen_range (-sensor_noise_stddev) sensor_noise_stddev (rng step) with
    | .error e => .error e
    | .ok noise =>
      let measured_position := tp + noise
      let kalman2 := (kalman.predict dt).update measured_position
      let tick : SimulateTick :=
        { true_positions := (time, tp)
          measured_positions := (time, measured_position)
          estimated_positions := (time, kalman2.state.x) }
      match simRun dt velocity sensor_noise_stddev rng n (step + 1) tp kalman2 with
      | .error e => .error e
      | .ok rest => .ok (tick :: rest)

/-- `simulate` from `src/main.rs`: `steps = (total_time / dt) as usize` (a
saturating truncation towards zero, equal to `⌊total_time / dt⌋.toNat` for
every rational argument), a fresh filter `KalmanFilter::new(0.0, velocity, r,
q)`, `true_position = 0.0`, then the loop. -/
def simulate (total_time dt velocity sensor_noise_stddev r q : ℚ)
    (rng : ℕ → ℚ) : Except String SimulateResult :=
  let steps : ℕ := (⌊total_time / dt⌋).toNat
  let kalman := KalmanFilter.new 0 velocity r q
  match simRun dt velocity sensor_noise_stddev rng steps 0 0 kalman with
  | .error e => .error e
  | .ok ticks => .ok { ticks := ticks }

/-- Loop invariant of `simRun`: a successful run of `n` iterations starting at
index `step` with accumulated true position `tp` yields `n` ticks, and the
tick at offset `j` records time `(step + j) * dt`, true position
`tp + (j + 1) * velocity * dt`, and a measured position equal to the true
position plus the generator draw of that iteration. -/
theorem simRun_ok_spec (dt velocity s : ℚ) (rng : ℕ → ℚ) :
    ∀ (n step : ℕ) (tp : ℚ) (kal : KalmanFilter) (l : List SimulateTick),
      simRun dt velocity s rng n step tp kal = .ok l →
      l.length = n ∧
      ∀ j, j < n →
        ∃ t : SimulateTick, l.get? j = some t ∧
          t.true_positions
            = (((step + j : ℕ) : ℚ) * dt, tp + ((j : ℚ) + 1) * (velocity * dt)) ∧
          t.measured_positions.1 = t.true_positions.1 ∧
          t.measured_positions.2 = t.true_positions.2 + rng (step + j) := by
  intro n
  induction n with
  | zero =>
    intro step tp kal l h
    simp only [simRun] at h
    cases h
    exact ⟨rfl, fun j hj => absurd hj (Nat.not_lt_zero j)⟩
  | succ n ih =>
    intro step tp kal l h
    by_cases hs : -s < s
    · simp only [simRun, gen_range, if_pos hs] at h
      cases hrec : simRun dt velocity s rng n (step + 1) (tp + velocity * dt)
          ((kal.predict dt).update (tp + velocity * dt + rng step)) with
      | error e => rw [hrec] at h; simp at h
      | ok rest =>
        rw [hrec] at h
        simp only [Except.ok.injEq] at h
        subst h
        obtain ⟨hlen, hget⟩ := ih (step + 1) (tp + velocity * dt) _ rest hrec
        refine ⟨by simp [hlen], ?_⟩
        intro j hj
        cases j with
        | zero =>
          refine ⟨_, rfl, ?_, ?_, ?_⟩
          · simp
          · rfl
          · simp
        | succ j =>
          obtain ⟨t, ht, h1, h2, h3⟩ := hget j (Nat.lt_of_succ_lt_succ hj)
          refine ⟨t, by simpa using ht, ?_, h2, ?_⟩
          · rw [h1]
            simp only [Prod.mk.injEq]
            constructor
            · push_cast
              ring
            · push_cast
              ring
          · rw [h3]
            have harg : step + 1 + j = step + (j + 1) := by omega
            rw [harg]
    · simp only [simRun, gen_range, if_neg hs] at h
      exact Except.noConfusion h

/-- When the noise range is non-empty (`-s < s`), every run of the simulation
loop succeeds: `gen_range` is the only failure point. -/
theorem simRun_total (dt velocity s : ℚ) (rng : ℕ → ℚ) (hs : -s < s) :
    ∀ (n step : ℕ) (tp : ℚ) (kal : KalmanFilter),
      ∃ l, simRun dt velocity s rng n step tp kal = .ok l := by
  intro n
  induction n with
  | zero => exact fun step tp kal => ⟨[], rfl⟩
  | succ n ih =>
    intro step tp kal
    obtain ⟨l, hl⟩ := ih (step + 1) (tp + velocity * dt)
      ((kal.predict dt).update (tp + velocity * dt + rng step))
    refine ⟨{ true_positions := ((step : ℚ) * dt, tp + velocity * dt)
              measured_positions := ((step : ℚ) * dt, tp + velocity * dt + rng step)
              estimated_positions := ((step : ℚ) * dt,
                ((kal.predict dt).update (tp + velocity * dt + rng step)).state.x) }
              :: l, ?_⟩
    simp only [simRun, gen_range, if_pos hs, hl]

/-- A successful `simulate` run is exactly a successful `simRun` over
`⌊total_time / dt⌋.toNat` iterations from the initial state. -/
theorem simulate_ok_ticks (total_time dt velocity s r q : ℚ) (rng : ℕ → ℚ)
    (res : SimulateResult)
    (h : simulate total_time dt velocity s r q rng = .ok res) :
    simRun dt velocity s rng (⌊total_time / dt⌋).toNat 0 0
      (KalmanFilter.new 0 velocity r q) = .ok res.ticks := by
  simp only [simulate] at h
  cases hrec : simRun dt velocity s rng (⌊total_time / dt⌋).toNat 0 0
      (KalmanFilter.new 0 velocity r q) with
  | error e => rw [hrec] at h; simp at h
  | ok ticks =>
    rw [hrec] at h
    simp only [Except.ok.injEq] at h
    exact congrArg Except.ok (congrArg SimulateResult.ticks h)

/-- With a non-empty noise range, `simulate` succeeds and produces
`⌊total_time / dt⌋.toNat` ticks. -/
theorem simulate_total (total_time dt velocity s r q : ℚ) (rng : ℕ → ℚ)
    (hs : -s < s) :
    ∃ res, simulate total_time dt velocity s r q rng = .ok res ∧
      res.ticks.length = (⌊total_time / dt⌋).toNat := by
  obtain ⟨l, hl⟩ := simRun_total dt velocity s rng hs (⌊total_time / dt⌋).toNat 0 0
    (KalmanFilter.new 0 velocity r q)
  obtain ⟨hlen, _⟩ := simRun_ok_spec dt velocity s rng _ 0 0 _ l hl
  exact ⟨⟨l⟩, by simp only [simulate, hl], hlen⟩

/-- Claim C1: `update(measuredPosition)` sets the gain `k` to `p / (p + r)`,
adds `k * (measuredPosition - x)` to the state position, and multiplies the
error covariance by `1 - k` (all reads of `p` in the gain being the
pre-update value). -/
theorem C1_update_equations (kf : KalmanFilter) (m : ℚ) :
    (kf.update m).k = kf.p / (kf.p + kf.r) ∧
    (kf.update m).state.x
      = kf.state.x + (kf.p / (kf.p + kf.r)) * (m - kf.state.x) ∧
    (kf.update m).p = kf.p * (1 - kf.p / (kf.p + kf.r)) :=
  ⟨rfl, rfl, rfl⟩

/-- Claim C2: `predict(dt)` adds `v * dt` to the state position and adds the
process noise variance `q` to the error covariance. -/
theorem C2_predict_equations (kf : KalmanFilter) (dt : ℚ) :
    (kf.predict dt).state.x = kf.state.x + kf.state.v * dt ∧
    (kf.predict dt).p = kf.p + kf.q :=
  ⟨rfl, rfl⟩

/-- Claim C9: neither `predict` nor `update` ever changes the velocity field
of the filter state. -/
theorem C9_velocity_never_written (kf : KalmanFilter) (dt m : ℚ) :
    (kf.predict dt).state.v = kf.state.v ∧
    (kf.update m).state.v = kf.state.v :=
  ⟨rfl, rfl⟩

/-- Claim C10: the noise parameters `r` and `q` are set by the constructor
and never modified by `predict` or `update`. -/
theorem C10_noise_params_fixed (x v r q dt m : ℚ) (kf : KalmanFilter) :
    (KalmanFilter.new x v r q).r = r ∧ (KalmanFilter.new x v r q).q = q ∧
    (kf.predict dt).r = kf.r ∧ (kf.predict dt).q = kf.q ∧
    (kf.update m).r = kf.r ∧ (kf.update m).q = kf.q :=
  ⟨rfl, rfl, rfl, rfl, rfl, rfl⟩

/-- Claim C3: when the pre-update error covariance is nonnegative and the
measurement noise variance is positive, the gain computed by `update` lies in
`[0, 1]`, and the error covariance after `update` is nonnegative and no
larger than its pre-update (i.e. post-predict) value. -/
theorem C3_gain_bounds_and_covariance_contraction (kf : KalmanFilter) (m : ℚ)
    (hp : 0 ≤ kf.p) (hr : 0 < kf.r) :
    0 ≤ (kf.update m).k ∧ (kf.update m).k ≤ 1 ∧
    0 ≤ (kf.update m).p ∧ (kf.update m).p ≤ kf.p := by
  have hpr : 0 < kf.p + kf.r := by linarith
  have hk0 : 0 ≤ kf.p / (kf.p + kf.r) := div_nonneg hp hpr.le
  have hk1 : kf.p / (kf.p + kf.r) ≤ 1 := by
    rw [div_le_one hpr]
    linarith
  simp only [KalmanFilter.update]
  exact ⟨hk0, hk1, mul_nonneg hp (by linarith),
    mul_le_of_le_one_right hp (by linarith)⟩

/-- Witness for C3: the constructor state has p = 1 ≥ 0 and r = 1 > 0. -/
theorem C3_gain_bounds_and_covariance_contraction_witness :
    0 ≤ ((KalmanFilter.new 0 0 1 0).update 5).k ∧
    ((KalmanFilter.new 0 0 1 0).update 5).k ≤ 1 ∧
    0 ≤ ((KalmanFilter.new 0 0 1 0).update 5).p ∧
    ((KalmanFilter.new 0 0 1 0).update 5).p ≤ (KalmanFilter.new 0 0 1 0).p :=
  C3_gain_bounds_and_covariance_contraction (KalmanFilter.new 0 0 1 0) 5
    (by norm_num [KalmanFilter.new]) (by norm_num [KalmanFilter.new])

/-- Claim C4: a successful `simulate` run with positive total time and time
step returns exactly `⌊total_time / dt⌋` ticks, in strictly increasing time
order; `total_time = dt` gives exactly 1 tick, and any `total_time` strictly
between `dt` and `2 * dt` also gives exactly 1 tick. -/
theorem C4_tick_count (total_time dt velocity s r q : ℚ) (rng : ℕ → ℚ)
    (res : SimulateResult) (hT : 0 < total_time) (hdt : 0 < dt)
    (hres : simulate total_time dt velocity s r q rng = .ok res) :
    res.ticks.length = (⌊total_time / dt⌋).toNat ∧
    (total_time = dt → res.ticks.length = 1) ∧
    (dt < total_time → total_time < 2 * dt → res.ticks.length = 1) ∧
    ∀ i j (hi : i < res.ticks.length) (hj : j < res.ticks.length), i < j →
      (res.ticks.get ⟨i, hi⟩).true_positions.1
        < (res.ticks.get ⟨j, hj⟩).true_positions.1 := by
  obtain ⟨hlen, hget⟩ := simRun_ok_spec dt velocity s rng (⌊total_time / dt⌋).toNat
    0 0 (KalmanFilter.new 0 velocity r q) res.ticks
    (simulate_ok_ticks total_time dt velocity s r q rng res hres)
  have htime : ∀ i (hi : i < res.ticks.length),
      (res.ticks.get ⟨i, hi⟩).true_positions.1 = (i : ℚ) * dt := by
    intro i hi
    obtain ⟨t, ht, h1, _, _⟩ := hget i (hlen ▸ hi)
    have hsome : some (res.ticks.get ⟨i, hi⟩) = some t := by
      rw [← List.get?_eq_get hi, ht]
    rw [Option.some.inj hsome, h1]
    simp
  refine ⟨hlen, ?_, ?_, ?_⟩
  · intro he
    rw [hlen, he, div_self (ne_of_gt hdt)]
    norm_num
  · intro h1 h2
    have hfl : ⌊total_time / dt⌋ = 1 := by
      rw [Int.floor_eq_iff]
      constructor
      · push_cast
        rw [le_div_iff₀ hdt]
        linarith
      · push_cast
        rw [div_lt_iff₀ hdt]
        linarith
    rw [hlen, hfl]
    rfl
  · intro i j hi hj hij
    rw [htime i hi, htime j hj]
    exact mul_lt_mul_of_pos_right (by exact_mod_cast hij) hdt

/-- Witness for C4: totalTime = 3/2, dt = 1 (strictly between dt and 2*dt)
gives exactly one tick. -/
theorem C4_tick_count_witness :
    (SimulateResult.mk [⟨(0, 1), (0, 1), (0, 1)⟩]).ticks.length
      = (⌊(3 / 2 : ℚ) / 1⌋).toNat :=
  (C4_tick_count (3 / 2) 1 1 1 4 (1 / 100) (fun _ => 0)
    (SimulateResult.mk [⟨(0, 1), (0, 1), (0, 1)⟩]) (by norm_num) (by norm_num)
    (by norm_num [simulate, simRun, gen_range, KalmanFilter.new,
      KalmanFilter.predict, KalmanFilter.update, Int.toNat_one])).1

/-- Claim C5, evaluated at a failing input: with `totalTime = 1` and
`dt = -1 ≤ 0`, `simulate` raises no error whatsoever: the saturating
step-count cast silently yields zero steps and the call returns a successful
empty result, where the specification demands an InvalidTimeStep error
before the loop. -/
theorem C5_no_invalid_time_step_error :
    simulate 1 (-1) 1 1 4 (1 / 100) (fun _ => 0) = .ok ⟨[]⟩ := by
  norm_num [simulate, simRun]

/-- Claim C6 counterexample: at the input demanded by the claim the sensor
noise half-width is 0, so the very first loop iteration calls `gen_range` on
the empty range `0..0`, which panics in `rand`; the run aborts and never
returns the 2 ticks the claim describes. -/
theorem C6_counterexample :
    simulate 1 (1 / 2) 2 0 (1 / 10000) (1 / 100) (fun _ => 0)
      = .error "cannot sample empty range" := by
  norm_num [simulate, simRun, gen_range]

/-- Claim C6 (amended): with any positive noise half-width, all generator
draws equal to 0, totalTime = 1, dt = 1/2, velocity = 2, Q = 1/100 and any
R > 0, `simulate` returns exactly 2 ticks; tick 0 records time 0, true
position 1 and measured position 1, tick 1 records time 1/2 and true
position 2; in general the true position recorded at step i is
`(i + 1) * velocity * dt`. -/
theorem C6_end_to_end (r s : ℚ) (hr : 0 < r) (hs : 0 < s) :
    ∃ res, simulate 1 (1 / 2) 2 s r (1 / 100) (fun _ => 0) = .ok res ∧
      res.ticks.length = 2 ∧
      (∀ t0, res.ticks.get? 0 = some t0 →
        t0.true_positions = (0, 1) ∧ t0.measured_positions = (0, 1)) ∧
      (∀ t1, res.ticks.get? 1 = some t1 → t1.true_positions = (1 / 2, 2)) ∧
      ∀ i, i < res.ticks.length →
        ∃ t, res.ticks.get? i = some t ∧
          t.true_positions.2 = ((i : ℚ) + 1) * (2 * (1 / 2)) := by
  have hs2 : -s < s := by linarith
  have hsteps : (⌊(1 : ℚ) / (1 / 2)⌋).toNat = 2 := by
    norm_num
    rfl
  obtain ⟨l, hl⟩ := simRun_total (1 / 2) 2 s (fun _ => 0) hs2 2 0 0
    (KalmanFilter.new 0 2 r (1 / 100))
  obtain ⟨hlen, hget⟩ := simRun_ok_spec (1 / 2) 2 s (fun _ => 0) 2 0 0
    (KalmanFilter.new 0 2 r (1 / 100)) l hl
  refine ⟨⟨l⟩, ?_, hlen, ?_, ?_, ?_⟩
  · simp only [simulate, hsteps, hl]
  · intro t0 ht0
    obtain ⟨t, ht, h1, h2, h3⟩ := hget 0 (by norm_num)
    have h00 : l.get? 0 = some t0 := ht0
    obtain rfl : t0 = t := Option.some.inj (h00.symm.trans ht)
    have htrue : t0.true_positions = ((0 : ℚ), (1 : ℚ)) := by
      rw [h1]
      norm_num
    refine ⟨htrue, ?_⟩
    have hm1 : t0.measured_positions.1 = (0 : ℚ) := by rw [h2, htrue]
    have hm2 : t0.measured_positions.2 = (1 : ℚ) := by
      rw [h3, htrue]
      norm_num
    calc t0.measured_positions
        = (t0.measured_positions.1, t0.measured_positions.2) := rfl
      _ = ((0 : ℚ), (1 : ℚ)) := by rw [hm1, hm2]
  · intro t1 ht1
    obtain ⟨t, ht, h1, _, _⟩ := hget 1 (by norm_num)
    have h11 : l.get? 1 = some t1 := ht1
    obtain rfl : t1 = t := Option.some.inj (h11.symm.trans ht)
    rw [h1]
    norm_num
  · intro i hi
    have hi2 : i < 2 := by
      have hi0 : i < l.length := hi
      omega
    obtain ⟨t, ht, h1, _, _⟩ := hget i hi2
    refine ⟨t, ht, ?_⟩
    rw [h1]
    simp

/-- Witness for C6 at R = 1/10000 and noise half-width 1. -/
theorem C6_end_to_end_witness :
    ∃ res, simulate 1 (1 / 2) 2 1 (1 / 10000) (1 / 100) (fun _ => 0) = .ok res ∧
      res.ticks.length = 2 ∧
      (∀ t0, res.ticks.get? 0 = some t0 →
        t0.true_positions = (0, 1) ∧ t0.measured_positions = (0, 1)) ∧
      (∀ t1, res.ticks.get? 1 = some t1 → t1.true_positions = (1 / 2, 2)) ∧
      ∀ i, i < res.ticks.length →
        ∃ t, res.ticks.get? i = some t ∧
          t.true_positions.2 = ((i : ℚ) + 1) * (2 * (1 / 2)) :=
  C6_end_to_end (1 / 10000) 1 (by norm_num) (by norm_num)

/-- Claim C7 counterexample: with totalTime = 1 > 0, dt = 1 > 0, R = 1 > 0
but sensorNoiseStdDev = 0, the first loop iteration panics inside `rand`
(empty sample range), so the loop does not complete its steps. -/
theorem C7_counterexample :
    simulate 1 1 1 0 1 (1 / 100) (fun _ => 0)
      = .error "cannot sample empty range" := by
  norm_num [simulate, simRun, gen_range]

/-- Claim C7 (amended): with totalTime > 0, dt > 0, R > 0 and additionally a
positive sensor noise half-width, no error is raised during the simulation
loop: every one of the `⌊total_time / dt⌋` steps completes and the run
returns that many ticks. -/
theorem C7_no_midloop_errors (total_time dt velocity s r q : ℚ) (rng : ℕ → ℚ)
    (hT : 0 < total_time) (hdt : 0 < dt) (hr : 0 < r) (hs : 0 < s) :
    ∃ res, simulate total_time dt velocity s r q rng = .ok res ∧
      res.ticks.length = (⌊total_time / dt⌋).toNat :=
  simulate_total total_time dt velocity s r q rng (by linarith)

/-- Witness for C7. -/
theorem C7_no_midloop_errors_witness :
    ∃ res, simulate 1 1 1 1 1 (1 / 100) (fun _ => 0) = .ok res ∧
      res.ticks.length = (⌊(1 : ℚ) / 1⌋).toNat :=
  C7_no_midloop_errors 1 1 1 1 1 (1 / 100) (fun _ => 0)
    (by norm_num) (by norm_num) (by norm_num) (by norm_num)

/-- Claim C8 counterexample: the draw `-s` is permitted by the documented
half-open support `[-s, s)` of `gen_range` but excluded by the open interval
the claim states; a run whose draw is exactly `-s = -2` is accepted by the
code and records `measuredPosition = truePosition - 2`. -/
theorem C8_counterexample :
    gen_range_support (-2) 2 (-2) ∧ ¬ spec_open_noise_support 2 (-2) ∧
    simulate 1 1 1 2 4 (1 / 100) (fun _ => -2)
      = .ok ⟨[⟨(0, 1), (0, -1), (0, 299 / 501)⟩]⟩ := by
  refine ⟨by norm_num [gen_range_support], ?_, ?_⟩
  · simp only [spec_open_noise_support]
    norm_num
  · norm_num [simulate, simRun, gen_range, KalmanFilter.new,
      KalmanFilter.predict, KalmanFilter.update, Int.toNat_one]

/-- Claim C8 (amended): at every simulation step the recorded measured
position equals the true position plus that step's generator draw, and under
the documented `gen_range` contract the draw lies in the half-open interval
`[-s, s)`: the lower endpoint is included, only the upper is excluded. -/
theorem C8_noise_support (total_time dt velocity s r q : ℚ) (rng : ℕ → ℚ)
    (res : SimulateResult)
    (hdraws : ∀ i, gen_range_support (-s) s (rng i))
    (hres : simulate total_time dt velocity s r q rng = .ok res) :
    ∀ i, i < res.ticks.length →
      ∃ t, res.ticks.get? i = some t ∧
        t.measured_positions.2 = t.true_positions.2 + rng i ∧
        -s ≤ rng i ∧ rng i < s := by
  obtain ⟨hlen, hget⟩ := simRun_ok_spec dt velocity s rng (⌊total_time / dt⌋).toNat
    0 0 (KalmanFilter.new 0 velocity r q) res.ticks
    (simulate_ok_ticks total_time dt velocity s r q rng res hres)
  intro i hi
  obtain ⟨t, ht, _, _, h3⟩ := hget i (hlen ▸ hi)
  exact ⟨t, ht, by simpa using h3, (hdraws i).1, (hdraws i).2⟩

/-- Witness for C8: a one-step run with zero draws and noise half-width 1. -/
theorem C8_noise_support_witness :
    ∃ t, (SimulateResult.mk [⟨(0, 1), (0, 1), (0, 1)⟩]).ticks.get? 0 = some t ∧
      t.measured_positions.2 = t.true_positions.2 + (fun (_ : ℕ) => (0 : ℚ)) 0 ∧
      -(1 : ℚ) ≤ (fun (_ : ℕ) => (0 : ℚ)) 0 ∧ (fun (_ : ℕ) => (0 : ℚ)) 0 < 1 :=
  C8_noise_support 1 1 1 1 1 (1 / 100) (fun _ => 0)
    (SimulateResult.mk [⟨(0, 1), (0, 1), (0, 1)⟩])
    (fun i => by norm_num [gen_range_support])
    (by norm_num [simulate, simRun, gen_range, KalmanFilter.new,
      KalmanFilter.predict, KalmanFilter.update, Int.toNat_one])
    0 (by norm_num)

end KalmanSim
